import Mathlib

/-!
Verification of `scraper_utils.py` (sentiment_stock repository).

This file gives a shallow embedding of the sitemap/article pipeline of
`src/scraper_utils.py` and proves properties about it.

Modelling conventions:
* Instants (timezone-aware Python `datetime` values, always normalized to UTC
  by the code via `astimezone(timezone.utc)`) are modelled as `Int`: the number
  of seconds since the civil epoch 1970-01-01T00:00:00Z, computed by the
  standard proleptic-Gregorian `daysFromCivil` conversion.
* The Python standard library's string-to-datetime parsers
  (`datetime.fromisoformat`, `datetime.strptime`) are not repository code;
  their *result* is modelled structurally: a document field that the code
  obtains by parsing a date string is carried as an already-parsed
  `Option ISODateTime` (`none` covering an absent tag, empty text, or an
  unparseable string — all of which leave the corresponding variable unset in
  the Python code, with identical observable behaviour downstream).
* `requests`/HTML fetching is modelled by an explicit fetch oracle
  `String → Option SitemapDoc` (for sitemaps) or by passing the already
  fetched document `Option ArticleDoc` (for articles); `get_soup` returning
  `None` on transport failure is the `none` case.
* Python regular expression *search* over the two constant patterns of the
  file is embedded as substring search for an explicit finite list of literal
  alternatives; both patterns denote finite sets of string literals once the
  character classes are expanded (see `outOfRangeLits` for the derivation,
  including the effect of Python adjacent-string-literal concatenation on the
  multi-line pattern).
* Python truthiness on strings/`None` is modelled by `pyFalsy`.
-/

/-! ## Civil time arithmetic -/

/-- Number of days from 1970-01-01 to the civil date `y-m-d`, by the standard
proleptic-Gregorian conversion (era/year-of-era/day-of-year decomposition),
using floor division so the formula is valid for all years. -/
def daysFromCivil (y m d : Int) : Int :=
  let y2 := if m ≤ 2 then y - 1 else y
  let era := Int.fdiv y2 400
  let yoe := y2 - era * 400
  let mp := Int.emod (m + 9) 12
  let doy := Int.fdiv (153 * mp + 2) 5 + d - 1
  let doe := yoe * 365 + Int.fdiv yoe 4 - Int.fdiv yoe 100 + doy
  era * 146097 + doe - 719468

/-- Seconds since 1970-01-01T00:00:00Z of the UTC civil datetime
`y-m-d h:mi:s`. -/
def toSec (y m d h mi s : Int) : Int :=
  daysFromCivil y m d * 86400 + h * 3600 + mi * 60 + s

/-- An already-parsed timezone-aware datetime, as produced by
`datetime.fromisoformat` on a well-formed ISO-8601 string carrying an offset
(the sitemap `YYYY-MM-DD` fallback corresponds to offset 0). -/
structure ISODateTime where
  year : Int
  month : Int
  day : Int
  hour : Int
  minute : Int
  second : Int
  offsetMinutes : Int
deriving Repr, DecidableEq

/-- The UTC instant of an aware datetime: `astimezone(timezone.utc)` keeps the
instant, so it is the civil reading minus the attached offset. -/
def isoToUTC (d : ISODateTime) : Int :=
  toSec d.year d.month d.day d.hour d.minute d.second - d.offsetMinutes * 60

/-- A naive (offset-less) datetime, as returned by a site-specific
`date_parser`. -/
structure NaiveDateTime where
  year : Int
  month : Int
  day : Int
  hour : Int
  minute : Int
  second : Int
deriving Repr, DecidableEq

/-- The Python line
`timestamp_naive.replace(tzinfo=timezone(timedelta(hours=7))).astimezone(timezone.utc)`:
the naive value is stamped with a fixed UTC+7 offset and the instant converted
to UTC, i.e. 7 hours are subtracted.  (The `except` fallback on the next line
of the source is unreachable: `replace`/`astimezone` on a `datetime` value do
not raise.) -/
def naivePlus7ToUTC (n : NaiveDateTime) : Int :=
  toSec n.year n.month n.day n.hour n.minute n.second - 7 * 3600

/-- The constant `START_DATE = datetime(2025, 1, 1, tzinfo=timezone.utc)`. -/
def START_DATE : Int := toSec 2025 1 1 0 0 0

/-- The constant `END_DATE = datetime(2025, 9, 30, 23, 59, 59, tzinfo=timezone.utc)`. -/
def END_DATE : Int := toSec 2025 9 30 23 59 59

/-- The constant `START_DATE_FILTER = datetime(2024, 12, 1, tzinfo=timezone.utc)`. -/
def START_DATE_FILTER : Int := toSec 2024 12 1 0 0 0

/-! ## String helpers

The Lean core string functions `String.trim` and `String.splitOn` are defined
by well-founded recursion on byte positions, which the kernel cannot unfold;
the evaluation-friendly equivalents below are structural (or fuel-based with
provably sufficient fuel) over the underlying character list, so that every
concrete instance in this file is checkable by `decide`/`rfl`. -/

/-- Python `s.strip()`: drop whitespace from both ends. -/
def pyStrip (s : String) : String :=
  String.mk (((s.data.dropWhile Char.isWhitespace).reverse.dropWhile
    Char.isWhitespace).reverse)

/-- Python `c in s` for a single character `c`. -/
def pyContainsChar (s : String) (c : Char) : Bool :=
  s.data.contains c

/-- Python `s.lower()` (our inputs are ASCII). -/
def pyLower (s : String) : String :=
  String.mk (s.data.map Char.toLower)

/-- Python `sep.join(parts)`. -/
def pyJoin (sep : String) : List String → String
  | [] => ""
  | [x] => x
  | x :: y :: xs => x ++ sep ++ pyJoin sep (y :: xs)

/-- Worker for `pySplit`: left-to-right scan splitting on the non-empty
separator `sep`; `acc` holds the current piece reversed.  One unit of fuel is
spent per step and every recursive call consumes at least one input
character, so fuel `|s| + 1` never runs out. -/
def pySplitGo (sep : List Char) : Nat → List Char → List Char → List (List Char)
  | 0, s, acc => [acc.reverse ++ s]
  | _ + 1, [], acc => [acc.reverse]
  | fuel + 1, c :: rest, acc =>
    if sep.isPrefixOf (c :: rest) then
      acc.reverse :: pySplitGo sep fuel (List.drop sep.length (c :: rest)) []
    else
      pySplitGo sep fuel rest (c :: acc)

/-- Python `s.split(sep)` for a non-empty literal separator. -/
def pySplit (s sep : String) : List String :=
  (pySplitGo sep.data (s.data.length + 1) s.data []).map String.mk

/-- Python `pat in s` for a non-empty literal `pat`: the split on `pat` has
at least two pieces exactly when `pat` occurs in `s`. -/
def containsSubstr (s pat : String) : Bool :=
  (pySplit s pat).length ≥ 2

/-- Python truthiness of an optional string: `None` and the empty string are
falsy, every other string is truthy. -/
def pyFalsy : Option String → Bool
  | none => true
  | some s => decide (s = "")

/-! ## The constant keyword list and the two constant regular expressions -/

/-- The list `FIRM_KEYWORDS` of the source. -/
def FIRM_KEYWORDS : List String :=
  ["vcb", "hpg", "fpt", "vic", "vnm", "bid", "ctg", "mwg", "ssi", "tcb",
   "vpb", "mbb", "acb", "eib", "stb", "hdb", "vib", "gas", "plx", "pow",
   "gvr", "vre", "vhm", "msn", "sab", "bvh", "tpb", "pdr", "nvl", "kdh"]

/-- The list `MACRO_KEYWORDS` of the source. -/
def MACRO_KEYWORDS : List String :=
  ["lai-suat", "lam-phat", "gdp", "tang-truong-kinh-te", "ty-gia",
   "chinh-sach-tien-te", "vnd", "usd", "vn-index", "vnindex",
   "chung-khoan", "ngan-hang-nha-nuoc", "trai-phieu", "co-phieu"]

/-- `ALL_KEYWORDS_FILTER = FIRM_KEYWORDS + MACRO_KEYWORDS`. -/
def ALL_KEYWORDS_FILTER : List String := FIRM_KEYWORDS ++ MACRO_KEYWORDS

/-- The year alternatives of `RE_SITEMAP_OUT_OF_RANGE`:
`(20[0-1][0-9]|202[0-3])` expands to the literals "2000"–"2019" and
"2020"–"2023", and `(2024)` adds "2024". -/
def yearLits : List String :=
  ["2000", "2001", "2002", "2003", "2004", "2005", "2006", "2007", "2008",
   "2009", "2010", "2011", "2012", "2013", "2014", "2015", "2016", "2017",
   "2018", "2019", "2020", "2021", "2022", "2023", "2024"]

/-- The literal alternatives denoted by `RE_SITEMAP_OUT_OF_RANGE`.

The pattern is written in the source as five adjacent Python string literals

  `r'(20[0-1][0-9]|202[0-3])'  r'|(2024)'  r'|-(2025)-(10|11|12)'`
  `r'_(2025)_(10|11|12)'  r'-2025-10-|-2025-11-|-2025-12-'`

which Python concatenates into the single regex

  `(20[0-1][0-9]|202[0-3])|(2024)|-(2025)-(10|11|12)_(2025)_(10|11|12)-2025-10-|-2025-11-|-2025-12-`

Note that there is no `|` between the third and fourth pieces, nor between the
fourth and fifth: the fragments `-(2025)-(10|11|12)`, `_(2025)_(10|11|12)` and
`-2025-10-` are therefore glued into one top-level alternative
`-2025-(10|11|12)_2025_(10|11|12)-2025-10-`.  The top-level alternatives are
all literal once character classes and inner alternations are expanded:
the 25 year literals, the 9 glued strings
`-2025-a_2025_b-2025-10-` for `a`, `b` in 10, 11, 12, and the two standalone
literals `-2025-11-` and `-2025-12-`. -/
def outOfRangeLits : List String :=
  yearLits ++
  ["-2025-10_2025_10-2025-10-", "-2025-10_2025_11-2025-10-",
   "-2025-10_2025_12-2025-10-", "-2025-11_2025_10-2025-10-",
   "-2025-11_2025_11-2025-10-", "-2025-11_2025_12-2025-10-",
   "-2025-12_2025_10-2025-10-", "-2025-12_2025_11-2025-10-",
   "-2025-12_2025_12-2025-10-"] ++
  ["-2025-11-", "-2025-12-"]

/-- `RE_SITEMAP_OUT_OF_RANGE.search(url)` is truthy exactly when some literal
alternative occurs as a substring of `url`. -/
def reSitemapOutOfRangeSearch (url : String) : Bool :=
  outOfRangeLits.any (fun lit => containsSubstr url lit)

/-- The literal alternatives of `RE_SITEMAP_JUNK` (every alternative of that
pattern is a literal; `\.` escapes denote a literal dot). -/
def junkLits : List String :=
  ["google-news-sitemap.xml", "latest-news-sitemap.xml",
   "latestnews-sitemap.xml", "category.rss", "category-sitemap.xml",
   "sitemaparticles-site", "category_sitemap", "topics.xml",
   "event-sitemap.xml", "categories.xml"]

/-- `RE_SITEMAP_JUNK.search(url)` is truthy exactly when some literal
alternative occurs as a substring of `url`. -/
def reSitemapJunkSearch (url : String) : Bool :=
  junkLits.any (fun lit => containsSubstr url lit)

/-- The keyword test of `parse_sitemap_links`:
`any(keyword in url_lower for keyword in ALL_KEYWORDS_FILTER)` with
`url_lower = url.lower()`. -/
def keywordSearch (url : String) : Bool :=
  ALL_KEYWORDS_FILTER.any (fun k => containsSubstr (pyLower url) k)

/-! ## Sitemap documents and `parse_sitemap_links` -/

/-- One `<url>` or `<sitemap>` entry of a sitemap document.
`loc` is the text of the `<loc>` child (`none` when the tag is missing);
`lastmod` models the `<lastmod>` child: `none` when the tag is missing or its
text is empty (`if lastmod_tag and lastmod_tag.text`), and `some p` when the
tag has non-empty text whose parse by `_parse_datetime_sitemap` — ISO-8601
first, bare `YYYY-MM-DD` as fallback, normalized to UTC — yields `p`
(`p = none` for an unparseable string). -/
structure SitemapEntry where
  loc : Option String
  lastmod : Option (Option Int)
deriving Repr, DecidableEq

/-- A fetched and parsed sitemap document.
`isIndexDoc` is the truthiness of `soup.find('sitemapindex')`;
`urlEntries` is `soup.find_all('url')` and `sitemapEntries` is
`soup.find_all('sitemap')`, in document order. -/
structure SitemapDoc where
  isIndexDoc : Bool
  urlEntries : List SitemapEntry
  sitemapEntries : List SitemapEntry
deriving Repr, DecidableEq

/-- The entry collection of `parse_sitemap_links`:
`entries = soup.find_all('url'); if not entries: entries = soup.find_all('sitemap')`. -/
def collectEntries (doc : SitemapDoc) : List SitemapEntry :=
  if doc.urlEntries.isEmpty then doc.sitemapEntries else doc.urlEntries

/-- The date-window test on an optional parsed lastmod value:
`if lastmod_date:` then skip when
`lastmod_date < START_DATE_FILTER or lastmod_date > END_DATE`. -/
def lastmodOutOfRange : Option Int → Bool
  | some d => decide (d < START_DATE_FILTER) || decide (END_DATE < d)
  | none => false

/-- The per-entry body of the loop of `parse_sitemap_links`: `none` when the
entry is skipped (`continue`), `some url` when it is yielded.
`isIndexDocFlag` is the truthiness of `soup.find('sitemapindex')` for the
whole document. -/
def entryYield (isIndexDocFlag : Bool) (e : SitemapEntry) : Option String :=
  match e.loc with
  | none => none
  | some loc0 =>
    let url := pyStrip loc0
    let lastmodDate : Option Int := e.lastmod.bind id
    if lastmodOutOfRange lastmodDate then none
    else if !isIndexDocFlag && !keywordSearch url then none
    else some url

/-- The generator `parse_sitemap_links`, applied to an already fetched
document: the sequence of URLs it yields, in order. -/
def parse_sitemap_links (doc : SitemapDoc) : List String :=
  (collectEntries doc).filterMap (entryYield doc.isIndexDoc)

/-- The generator `parse_sitemap`, with the network abstracted by a fetch
oracle (`get_soup` returning `none` on transport failure) and the unbounded
recursion over child sitemaps bounded by explicit fuel (the Python recursion
has no depth bound; every claim proved below holds for every fuel value). -/
def parse_sitemap (fetch : String → Option SitemapDoc) : Nat → String → List String
  | 0, _ => []
  | fuel + 1, sitemapUrl =>
    if reSitemapJunkSearch sitemapUrl then []
    else if reSitemapOutOfRangeSearch sitemapUrl then []
    else
      match fetch sitemapUrl with
      | none => []
      | some doc =>
        if doc.isIndexDoc then
          (parse_sitemap_links doc).flatMap (fun child => parse_sitemap fetch fuel child)
        else
          parse_sitemap_links doc

/-! ## Article documents and `process_article` -/

/-- The first DOM match of `selectors['time']`, when any: `datetimeAttr`
models the `datetime` attribute (`none` when the element lacks the attribute
or when `_parse_datetime_meta` of its value yields `None` — either way the
code falls through to the visible text); `text` is the element's visible
text. -/
structure TimeElem where
  datetimeAttr : Option ISODateTime
  text : String
deriving Repr, DecidableEq

/-- A fetched and parsed article page, restricted to the observations
`process_article` makes of it (for a fixed selector configuration):
* `ogTitleContent`: the `content` attribute of the `og:title` meta tag,
  `none` when the tag (or the attribute) is absent;
* `titleTagText`: the text of the document `<title>` tag, `none` when absent;
* `selTitleText`: the text of `soup.select_one(selectors['title'])`,
  `none` when there is no match;
* `metaPublishedTime`: the parsed `content` of the `article:published_time`
  meta tag, `none` when the tag is absent, its content falsy, or the content
  unparseable by `_parse_datetime_meta` (all of which leave `timestamp`
  unset);
* `timeElement`: the first match of `soup.select_one(selectors['time'])`. -/
structure ArticleDoc where
  ogTitleContent : Option String
  titleTagText : Option String
  selTitleText : Option String
  metaPublishedTime : Option ISODateTime
  timeElement : Option TimeElem
deriving Repr, DecidableEq

/-- The output record of `process_article`; the `timestamp.isoformat()`
string is abstracted to the UTC instant it denotes. -/
structure ArticleRecord where
  source : String
  url : String
  title : String
  timestamp : Int
deriving Repr, DecidableEq

/-- The transformation `process_article` applies to the document `<title>`
text (source lines 167-173): trim; then, IF the result contains `|`, keep the
segment before the first `|`, trimmed; then, IF the (possibly updated) result
contains the string `" - "`, split on it and, when there are at least two
parts and the last is shorter than 25 characters, drop the last part and
rejoin the rest with `" - "`, trimmed.  The two IFs are consecutive
statements, not an if/elif chain. -/
def titleFromTitleTag (t0 : String) : String :=
  let t1 := pyStrip t0
  let t2 := if pyContainsChar t1 '|' then pyStrip ((pySplit t1 "|").headD t1) else t1
  if (pySplit t2 " - ").length ≥ 2 then
    let parts := pySplit t2 " - "
    if parts.length > 1 ∧ (parts.getLastD "").length < 25 then
      pyStrip (pyJoin " - " parts.dropLast)
    else t2
  else t2

/-- The `" - "` suffix-stripping heuristic in isolation (the second IF of
`titleFromTitleTag`), used to state how the two title transformations
compose. -/
def dashHeuristic (t : String) : String :=
  if (pySplit t " - ").length ≥ 2 then
    let parts := pySplit t " - "
    if parts.length > 1 ∧ (parts.getLastD "").length < 25 then
      pyStrip (pyJoin " - " parts.dropLast)
    else t
  else t

/-- Title resolution of `process_article` (source lines 160-178): `og:title`
content when truthy, trimmed; else — when the current value is falsy — the
transformed `<title>` text; else — when still falsy — the text of the title
selector match, trimmed.  The value `some ""` (a present but empty string) is
falsy and keeps falling through, exactly like Python's `if not title`. -/
def resolveTitle (doc : ArticleDoc) : Option String :=
  let title1 : Option String :=
    match doc.ogTitleContent with
    | some c => if c = "" then none else some (pyStrip c)
    | none => none
  let title2 : Option String :=
    if pyFalsy title1 then
      match doc.titleTagText with
      | some t0 => some (titleFromTitleTag t0)
      | none => title1
    else title1
  if pyFalsy title2 then
    match doc.selTitleText with
    | some s => some (pyStrip s)
    | none => title2
  else title2

/-- Timestamp resolution of `process_article` (source lines 180-198):
`article:published_time` meta content when it parses; else, when a time
element matches, its `datetime` attribute when it parses; else the site
`date_parser` on the element's trimmed visible text, with the naive result
stamped UTC+7 and converted to UTC.  The `date_parser` is a user-supplied
Python function and may raise, hence the `Except` codomain; every other step
here is non-raising. -/
def resolveTimestamp (doc : ArticleDoc)
    (dateParser : String → Except String (Option NaiveDateTime)) :
    Except String (Option Int) :=
  match doc.metaPublishedTime with
  | some d => Except.ok (some (isoToUTC d))
  | none =>
    match doc.timeElement with
    | none => Except.ok none
    | some te =>
      match te.datetimeAttr with
      | some d => Except.ok (some (isoToUTC d))
      | none =>
        match dateParser (pyStrip te.text) with
        | Except.error e => Except.error e
        | Except.ok (some n) => Except.ok (some (naivePlus7ToUTC n))
        | Except.ok none => Except.ok none

/-- The body of the `try:` block of `process_article` (source lines 159-209):
resolve title and timestamp, return `none` when either is falsy/unset
(`if not title or not timestamp: return None` — here the catch-all match arm
for an unset field together with the `t = ""` test for an empty title),
otherwise build the record when the timestamp lies in
`[START_DATE, END_DATE]` and return `none` otherwise.  An uncaught exception
of the body is an `Except.error`. -/
def processArticleBody (url : String) (doc : ArticleDoc) (sourceName : String)
    (dateParser : String → Except String (Option NaiveDateTime)) :
    Except String (Option ArticleRecord) :=
  match resolveTimestamp doc dateParser with
  | Except.error e => Except.error e
  | Except.ok timestamp =>
    match resolveTitle doc, timestamp with
    | some t, some ts =>
      if t = "" then Except.ok none
      else if START_DATE ≤ ts ∧ ts ≤ END_DATE then
        Except.ok (some { source := sourceName, url := url, title := t, timestamp := ts })
      else
        Except.ok none
    | _, _ => Except.ok none

/-- `process_article(url, selectors, date_parser)`: `get_soup` failure
(`soup = none`) returns `None`; otherwise the `try:` body runs and any
exception it raises is caught by `except Exception` and converted to `None`
(source lines 151-214).  The fixed `selectors` dict is represented by the
selector-match fields of `ArticleDoc` together with
`sourceName = selectors['source_name']`. -/
def process_article (url : String) (soup : Option ArticleDoc) (sourceName : String)
    (dateParser : String → Except String (Option NaiveDateTime)) :
    Option ArticleRecord :=
  match soup with
  | none => none
  | some doc =>
    match processArticleBody url doc sourceName dateParser with
    | Except.ok r => r
    | Except.error _ => none

/-! ## Helper lemmas -/

/-- An out-of-window parsed lastmod value makes the date test fire. -/
theorem lastmodOutOfRange_eq_true {d : Int}
    (hd : d < START_DATE_FILTER ∨ END_DATE < d) :
    lastmodOutOfRange (some d) = true := by
  rcases hd with h1 | h1 <;> simp [lastmodOutOfRange, h1]

/-- An entry whose lastmod parses to an out-of-window instant is skipped by
the loop body, whatever the index flag. -/
theorem entryYield_none_of_bad_lastmod (b : Bool) (e : SitemapEntry) (d : Int)
    (h : e.lastmod = some (some d)) (hd : d < START_DATE_FILTER ∨ END_DATE < d) :
    entryYield b e = none := by
  cases hloc : e.loc with
  | none => simp [entryYield, hloc]
  | some loc0 => simp [entryYield, hloc, h, lastmodOutOfRange_eq_true hd]

/-! ## Claims about the sitemap side -/

/-- C5: for every sitemap entry whose lastmod date parses and falls before
2024-12-01T00:00:00Z or after 2025-09-30T23:59:59Z, `parse_sitemap_links`
skips the entry regardless of the document's index flag — and hence
regardless of whether its URL matches a keyword: the date filter fires before
and independently of the keyword filter. -/
theorem c5_out_of_window_lastmod_always_skipped :
    ∀ (b : Bool) (e : SitemapEntry) (d : Int),
      e.lastmod = some (some d) →
      (d < START_DATE_FILTER ∨ END_DATE < d) →
      entryYield b e = none ∧ parse_sitemap_links ⟨b, [e], []⟩ = [] := by
  intro b e d h hd
  have h1 := entryYield_none_of_bad_lastmod b e d h hd
  refine ⟨h1, ?_⟩
  simp [parse_sitemap_links, collectEntries, h1]

/-- C5 witness: a keyword-matching leaf entry with lastmod 2024-11-30 (before
the filter start) is skipped. -/
theorem c5_witness :
    entryYield false ⟨some "https://ex.com/vcb-news.html",
        some (some (toSec 2024 11 30 0 0 0))⟩ = none ∧
    parse_sitemap_links ⟨false, [⟨some "https://ex.com/vcb-news.html",
        some (some (toSec 2024 11 30 0 0 0))⟩], []⟩ = [] :=
  c5_out_of_window_lastmod_always_skipped false _ _ rfl (by decide)

/-- C6: a leaf (non-index) entry with no parsed lastmod date is yielded if
and only if its lowercased URL contains one of the keywords, while an entry
of an index document is yielded unconditionally (never keyword-filtered). -/
theorem c6_keyword_filter_sole_criterion_without_lastmod :
    ∀ (e : SitemapEntry) (url : String),
      e.loc = some url →
      e.lastmod.bind id = none →
      entryYield false e =
        (if keywordSearch (pyStrip url) then some (pyStrip url) else none) ∧
      entryYield true e = some (pyStrip url) := by
  intro e url hloc hlast
  have hlast2 : (e.lastmod.bind fun a => a) = none := hlast
  constructor
  · cases hk : keywordSearch (pyStrip url) <;>
      simp [entryYield, hloc, hlast2, lastmodOutOfRange, hk]
  · simp [entryYield, hloc, hlast2, lastmodOutOfRange]

/-- C6 witness: a keyword-matching URL with no lastmod is yielded from a leaf
document and from an index document alike. -/
theorem c6_witness :
    entryYield false ⟨some "https://ex.com/co-phieu-x.html", none⟩ =
      (if keywordSearch (pyStrip "https://ex.com/co-phieu-x.html")
       then some (pyStrip "https://ex.com/co-phieu-x.html") else none) ∧
    entryYield true ⟨some "https://ex.com/co-phieu-x.html", none⟩ =
      some (pyStrip "https://ex.com/co-phieu-x.html") :=
  c6_keyword_filter_sole_criterion_without_lastmod _ _ rfl rfl

/-- A document carrying both kinds of entries: one leaf `<url>` entry and one
index `<sitemap>` entry (with a sitemapindex root marker, so no keyword
filtering applies). -/
def bothKindsDoc : SitemapDoc :=
  { isIndexDoc := true
  , urlEntries := [⟨some "https://a.example/x.xml", none⟩]
  , sitemapEntries := [⟨some "https://b.example/y.xml", none⟩] }

/-- C4 counterexample: on a document containing both `<url>` and `<sitemap>`
entries, `parse_sitemap_links` scans the `<url>` entries — the output is the
`<url>` entry's location, not the `<sitemap>` entry's, contradicting the
claim that the index entries are the ones scanned. -/
theorem c4_counterexample :
    parse_sitemap_links bothKindsDoc = ["https://a.example/x.xml"] ∧
    parse_sitemap_links bothKindsDoc ≠ ["https://b.example/y.xml"] := by
  constructor <;> decide

/-- C4 (amended): `parse_sitemap_links` collects the leaf `<url>` entries
when any are present — the `<sitemap>` entries are then ignored — and falls
back to the `<sitemap>` entries only when there are no `<url>` entries. -/
theorem c4_url_entries_scanned_first :
    (∀ doc : SitemapDoc, doc.urlEntries ≠ [] →
       parse_sitemap_links doc =
         parse_sitemap_links { doc with sitemapEntries := [] }) ∧
    (∀ doc : SitemapDoc, doc.urlEntries = [] →
       parse_sitemap_links doc =
         parse_sitemap_links ⟨doc.isIndexDoc, doc.sitemapEntries, []⟩) := by
  constructor
  · intro doc h
    cases hu : doc.urlEntries with
    | nil => exact absurd hu h
    | cons a as => simp [parse_sitemap_links, collectEntries, hu]
  · intro doc h
    cases hs : doc.sitemapEntries with
    | nil => simp [parse_sitemap_links, collectEntries, h, hs]
    | cons a as => simp [parse_sitemap_links, collectEntries, h, hs]

/-- C4 witness: the amended priority applied to the two-kind document. -/
theorem c4_witness :
    parse_sitemap_links bothKindsDoc =
      parse_sitemap_links { bothKindsDoc with sitemapEntries := [] } :=
  c4_url_entries_scanned_first.1 bothKindsDoc (by decide)

/-- A leaf sitemap document holding one keyword-matching article URL. -/
def c2LeafDoc : SitemapDoc :=
  { isIndexDoc := false
  , urlEntries := [⟨some "https://ex.com/co-phieu-abc.html", none⟩]
  , sitemapEntries := [] }

/-- A fetch oracle serving `c2LeafDoc` for the two month-marker URLs. -/
def c2Fetch : String → Option SitemapDoc := fun u =>
  if u = "https://ex.com/sitemap_2025_10_part1.xml" then some c2LeafDoc
  else if u = "https://ex.com/sitemap-2025-10-part1.xml" then some c2LeafDoc
  else none

/-- C2 (code-bug evidence): a sitemap URL carrying the `_2025_10_` month
marker — and likewise one carrying `-2025-10-` — is NOT matched by
`RE_SITEMAP_OUT_OF_RANGE` (the regex's third, fourth and fifth source
fragments are glued by Python literal concatenation into one unmatchable
alternative, see `outOfRangeLits`), so `parse_sitemap` fetches it and yields
its entries instead of rejecting it as the regex's own comments intend. -/
theorem c2_month_marker_urls_not_rejected :
    reSitemapOutOfRangeSearch "https://ex.com/sitemap_2025_10_part1.xml" = false ∧
    reSitemapOutOfRangeSearch "https://ex.com/sitemap-2025-10-part1.xml" = false ∧
    parse_sitemap c2Fetch 1 "https://ex.com/sitemap_2025_10_part1.xml" =
      ["https://ex.com/co-phieu-abc.html"] ∧
    parse_sitemap c2Fetch 1 "https://ex.com/sitemap-2025-10-part1.xml" =
      ["https://ex.com/co-phieu-abc.html"] ∧
    reSitemapOutOfRangeSearch "https://ex.com/sitemap-2025-11-part1.xml" = true := by
  refine ⟨by decide, by decide, by decide, by decide, by decide⟩

/-- C10: any sitemap URL containing one of the bare digit strings "2000"
through "2024" anywhere in its text — there are no word or path-segment
boundaries in the year branches of the pattern — is matched by
`RE_SITEMAP_OUT_OF_RANGE`, and `parse_sitemap` yields nothing for it under
every fetch oracle (no fetch can contribute). -/
theorem c10_bare_year_substring_always_rejected :
    ∀ (url : String) (fetch : String → Option SitemapDoc) (fuel : Nat),
      yearLits.any (fun y => containsSubstr url y) = true →
      reSitemapOutOfRangeSearch url = true ∧ parse_sitemap fetch fuel url = [] := by
  intro url fetch fuel h
  have hre : reSitemapOutOfRangeSearch url = true := by
    rcases List.any_eq_true.mp h with ⟨y, hy, hc⟩
    refine List.any_eq_true.mpr ⟨y, ?_, hc⟩
    simp only [outOfRangeLits, List.mem_append]
    exact Or.inl (Or.inl hy)
  refine ⟨hre, ?_⟩
  cases fuel with
  | zero => rfl
  | succ n =>
    cases hj : reSitemapJunkSearch url with
    | true => simp [parse_sitemap, hj]
    | false => simp [parse_sitemap, hj, hre]

/-- C10 witness: "2024" occurring inside the longer digit run "120243" of a
URL covering the 2025 window still causes rejection, for a fetch oracle that
would serve a document. -/
theorem c10_witness :
    reSitemapOutOfRangeSearch "https://ex.com/news-a-120243.xml" = true ∧
    parse_sitemap (fun _ => some c2LeafDoc) 3 "https://ex.com/news-a-120243.xml" = [] :=
  c10_bare_year_substring_always_rejected _ _ _ (by decide)

/-! ## Claims about the article side -/

/-- C3 counterexample: a `<title>` containing both `|` and `" - "` undergoes
BOTH transformations, not only the `|` split: the `|` split alone would give
"Stock market rallies - VnExpress", but the `" - "` heuristic then also fires
(suffix "VnExpress", 9 characters), leaving "Stock market rallies". -/
theorem c3_counterexample :
    titleFromTitleTag "Stock market rallies - VnExpress | News" =
      "Stock market rallies" ∧
    titleFromTitleTag "Stock market rallies - VnExpress | News" ≠
      "Stock market rallies - VnExpress" := by
  constructor <;> decide

/-- C3 (amended): in title resolution from the `<title>` tag the two
transformations are consecutive, not an else-if chain: when the trimmed text
contains `|` only the segment before the first `|` is kept (trimmed), and the
`" - "` suffix heuristic is then applied to that result as well; when there
is no `|`, the heuristic is applied to the trimmed text directly. -/
theorem c3_pipe_and_dash_compose :
    (∀ t0 : String, pyContainsChar (pyStrip t0) '|' = true →
        titleFromTitleTag t0 =
          dashHeuristic
            (pyStrip ((pySplit (pyStrip t0) "|").headD (pyStrip t0)))) ∧
    (∀ t0 : String, pyContainsChar (pyStrip t0) '|' = false →
        titleFromTitleTag t0 = dashHeuristic (pyStrip t0)) := by
  constructor <;> intro t0 h <;> simp [titleFromTitleTag, dashHeuristic, h]

/-- C3 witness: the composition applied to the both-separators title. -/
theorem c3_witness :
    titleFromTitleTag "Stock market rallies - VnExpress | News" =
      dashHeuristic
        (pyStrip ((pySplit (pyStrip "Stock market rallies - VnExpress | News") "|").headD
          (pyStrip "Stock market rallies - VnExpress | News"))) :=
  c3_pipe_and_dash_compose.1 _ (by decide)

/-- Inversion of a successful `process_article` call: a record is returned
only when the resolved title is a non-empty string, the resolved timestamp is
present, and the timestamp lies in the global window; the record fields are
exactly the resolved ones. -/
theorem process_article_some_spec (url : String) (doc : ArticleDoc) (src : String)
    (parser : String → Except String (Option NaiveDateTime)) (rec : ArticleRecord)
    (h : process_article url (some doc) src parser = some rec) :
    resolveTitle doc = some rec.title ∧ rec.title ≠ "" ∧
    resolveTimestamp doc parser = Except.ok (some rec.timestamp) ∧
    START_DATE ≤ rec.timestamp ∧ rec.timestamp ≤ END_DATE ∧
    rec.source = src ∧ rec.url = url := by
  obtain ⟨rsrc, rurl, rtitle, rts⟩ := rec
  simp only [process_article, processArticleBody] at h
  cases hrt : resolveTimestamp doc parser with
  | error e => simp [hrt] at h
  | ok tv =>
    simp only [hrt] at h
    cases htl : resolveTitle doc with
    | none => simp [htl] at h
    | some t =>
      simp only [htl] at h
      cases tv with
      | none => simp at h
      | some ts =>
        by_cases ht : t = ""
        · simp [ht] at h
        · by_cases hw : START_DATE ≤ ts ∧ ts ≤ END_DATE
          · simp [ht, hw, ArticleRecord.mk.injEq] at h
            obtain ⟨h1, h2, h3, h4⟩ := h
            subst h1; subst h2; subst h3; subst h4
            exact ⟨rfl, ht, rfl, hw.1, hw.2, rfl, rfl⟩
          · simp [ht, hw] at h

/-- A date parser that always returns absence (used where the parser path is
not exercised). -/
def parserNone : String → Except String (Option NaiveDateTime) :=
  fun _ => Except.ok none

/-- An article page with title "A" and `article:published_time` equal to
2025-10-01T00:00:00+00:00, one second past the window end. -/
def c1RejectDoc : ArticleDoc :=
  { ogTitleContent := some "A", titleTagText := none, selTitleText := none
  , metaPublishedTime := some ⟨2025, 10, 1, 0, 0, 0, 0⟩, timeElement := none }

/-- An article page with title "A" and `article:published_time` equal to
2025-09-30T23:59:59+00:00, the window end itself. -/
def c1AcceptDoc : ArticleDoc :=
  { ogTitleContent := some "A", titleTagText := none, selTitleText := none
  , metaPublishedTime := some ⟨2025, 9, 30, 23, 59, 59, 0⟩, timeElement := none }

/-- C1: `process_article` returns a record only when the resolved title is a
non-empty string and the resolved timestamp exists and lies within
`[START_DATE, END_DATE]` inclusive (absence of either field yields absence,
never a partial record); moreover 2025-10-01T00:00:00Z is rejected, being one
second past END_DATE.  (The witness adds the acceptance of
2025-09-30T23:59:59Z itself.) -/
theorem c1_record_requires_fields_and_window :
    (∀ (url : String) (doc : ArticleDoc) (src : String)
       (parser : String → Except String (Option NaiveDateTime)) (rec : ArticleRecord),
        process_article url (some doc) src parser = some rec →
        resolveTitle doc = some rec.title ∧ rec.title ≠ "" ∧
        resolveTimestamp doc parser = Except.ok (some rec.timestamp) ∧
        START_DATE ≤ rec.timestamp ∧ rec.timestamp ≤ END_DATE) ∧
    process_article "u" (some c1RejectDoc) "s" parserNone = none ∧
    toSec 2025 10 1 0 0 0 = END_DATE + 1 := by
  refine ⟨?_, by decide, by decide⟩
  intro url doc src parser rec h
  have hs := process_article_some_spec url doc src parser rec h
  exact ⟨hs.1, hs.2.1, hs.2.2.1, hs.2.2.2.1, hs.2.2.2.2.1⟩

/-- C1 witness: boundary acceptance — `article:published_time` equal to
2025-09-30T23:59:59Z produces a record carrying exactly END_DATE. -/
theorem c1_witness :
    resolveTitle c1AcceptDoc = some (ArticleRecord.mk "s" "u" "A" END_DATE).title ∧
    (ArticleRecord.mk "s" "u" "A" END_DATE).title ≠ "" ∧
    resolveTimestamp c1AcceptDoc parserNone =
      Except.ok (some (ArticleRecord.mk "s" "u" "A" END_DATE).timestamp) ∧
    START_DATE ≤ (ArticleRecord.mk "s" "u" "A" END_DATE).timestamp ∧
    (ArticleRecord.mk "s" "u" "A" END_DATE).timestamp ≤ END_DATE :=
  c1_record_requires_fields_and_window.1 "u" c1AcceptDoc "s" parserNone
    (ArticleRecord.mk "s" "u" "A" END_DATE) (by decide)

/-- An article page whose only timestamp source is the visible text
"15:30 05/03/2025" of the time element. -/
def c7Doc : ArticleDoc :=
  { ogTitleContent := some "T", titleTagText := none, selTitleText := none
  , metaPublishedTime := none, timeElement := some ⟨none, "15:30 05/03/2025"⟩ }

/-- A site date parser mapping "15:30 05/03/2025" to naive
2025-03-05T15:30:00. -/
def c7Parser : String → Except String (Option NaiveDateTime) := fun s =>
  if s = "15:30 05/03/2025" then Except.ok (some ⟨2025, 3, 5, 15, 30, 0⟩)
  else Except.ok none

/-- C7: when the timestamp is produced by `config.dateParser` on the time
element's visible text (no meta timestamp, no datetime attribute), the naive
result is stamped UTC+7 and converted to UTC; concretely naive
2025-03-05T15:30:00 becomes 2025-03-05T08:30:00Z, and the resulting record
carries that instant. -/
theorem c7_dateparser_path_attaches_utc7 :
    (∀ (doc : ArticleDoc) (parser : String → Except String (Option NaiveDateTime))
       (te : TimeElem) (n : NaiveDateTime),
        doc.metaPublishedTime = none →
        doc.timeElement = some te →
        te.datetimeAttr = none →
        parser (pyStrip te.text) = Except.ok (some n) →
        resolveTimestamp doc parser = Except.ok (some (naivePlus7ToUTC n))) ∧
    naivePlus7ToUTC ⟨2025, 3, 5, 15, 30, 0⟩ = toSec 2025 3 5 8 30 0 ∧
    process_article "u" (some c7Doc) "s" c7Parser =
      some (ArticleRecord.mk "s" "u" "T" (toSec 2025 3 5 8 30 0)) := by
  refine ⟨?_, by decide, by decide⟩
  intro doc parser te n hm ht ha hp
  simp [resolveTimestamp, hm, ht, ha, hp]

/-- C7 witness: the general statement applied to the concrete document and
parser of the spec example. -/
theorem c7_witness :
    resolveTimestamp c7Doc c7Parser =
      Except.ok (some (naivePlus7ToUTC ⟨2025, 3, 5, 15, 30, 0⟩)) :=
  c7_dateparser_path_attaches_utc7.1 c7Doc c7Parser ⟨none, "15:30 05/03/2025"⟩
    ⟨2025, 3, 5, 15, 30, 0⟩ rfl rfl rfl rfl

/-- An article page whose og:title meta tag carries the non-empty but
whitespace-only content " ", alongside `<title>B</title>` and an in-window
meta timestamp. -/
def c8Doc : ArticleDoc :=
  { ogTitleContent := some " ", titleTagText := some "B", selTitleText := none
  , metaPublishedTime := some ⟨2025, 5, 1, 12, 0, 0, 0⟩, timeElement := none }

/-- C8 counterexample: the og:title content " " is non-empty, yet the
record's title is "B" from the `<title>` tag, not the trimmed og:title
content "" — the claim's "non-empty content" premise is not sufficient,
because a whitespace-only content trims to the falsy empty string and the
code falls through. -/
theorem c8_counterexample :
    process_article "u" (some c8Doc) "s" parserNone =
      some (ArticleRecord.mk "s" "u" "B" (toSec 2025 5 1 12 0 0)) ∧
    ("B" : String) ≠ pyStrip " " := by
  constructor <;> decide

/-- C8 (amended): for every document whose og:title content trims to a
NON-EMPTY string, the resolved title is that content trimmed, regardless of
any `<title>` tag or selector match, and any record returned carries it. -/
theorem c8_og_title_wins_when_trim_nonempty :
    ∀ (doc : ArticleDoc) (c : String),
      doc.ogTitleContent = some c → pyStrip c ≠ "" →
      resolveTitle doc = some (pyStrip c) ∧
      ∀ (url src : String) (parser : String → Except String (Option NaiveDateTime))
        (rec : ArticleRecord),
        process_article url (some doc) src parser = some rec →
        rec.title = pyStrip c := by
  intro doc c hog hct
  have hc : c ≠ "" := by
    intro hc0
    rw [hc0] at hct
    exact hct rfl
  have hres : resolveTitle doc = some (pyStrip c) := by
    simp [resolveTitle, hog, hc, pyFalsy, hct]
  refine ⟨hres, ?_⟩
  intro url src parser rec h
  have h2 := (process_article_some_spec url doc src parser rec h).1
  rw [hres] at h2
  exact (Option.some.inj h2).symm

/-- An article page with og:title "A" and `<title>B</title>` (the claim's own
concrete example) plus an in-window meta timestamp. -/
def c8PriorityDoc : ArticleDoc :=
  { ogTitleContent := some "A", titleTagText := some "B", selTitleText := none
  , metaPublishedTime := some ⟨2025, 5, 1, 12, 0, 0, 0⟩, timeElement := none }

/-- C8 witness: with og:title "A" and `<title>B</title>` the resolved title
is "A", and the returned record carries it. -/
theorem c8_witness :
    resolveTitle c8PriorityDoc = some (pyStrip "A") ∧
    (ArticleRecord.mk "s" "u" "A" (toSec 2025 5 1 12 0 0)).title = pyStrip "A" :=
  ⟨(c8_og_title_wins_when_trim_nonempty c8PriorityDoc "A" rfl (by decide)).1,
   (c8_og_title_wins_when_trim_nonempty c8PriorityDoc "A" rfl (by decide)).2
     "u" "s" parserNone (ArticleRecord.mk "s" "u" "A" (toSec 2025 5 1 12 0 0))
     (by decide)⟩

/-- An article page routing timestamp resolution into the user-supplied date
parser. -/
def c9Doc : ArticleDoc :=
  { ogTitleContent := some "A", titleTagText := none, selTitleText := none
  , metaPublishedTime := none, timeElement := some ⟨none, "x"⟩ }

/-- A date parser that raises. -/
def c9Parser : String → Except String (Option NaiveDateTime) :=
  fun _ => Except.error "boom"

/-- C9: `process_article` never propagates an exception of the extraction
body: whenever the `try:` body raises (modelled as `Except.error`), the
`except Exception` handler converts the call's result to absence. -/
theorem c9_body_exception_caught_returns_none :
    ∀ (url : String) (doc : ArticleDoc) (src : String)
      (parser : String → Except String (Option NaiveDateTime)) (e : String),
      processArticleBody url doc src parser = Except.error e →
      process_article url (some doc) src parser = none := by
  intro url doc src parser e h
  simp [process_article, h]

/-- C9 witness: a raising date parser makes the body raise, and the call
still returns absence. -/
theorem c9_witness :
    process_article "u" (some c9Doc) "s" c9Parser = none :=
  c9_body_exception_caught_returns_none "u" c9Doc "s" c9Parser "boom" rfl
